import Mathlib

/-!
Shallow embedding of the bookinfo-details microservice (src/main.go).

The service exposes two handlers: `Health` and `GetDetails`.  `GetDetails`
resolves a `BookDetails` record either from a hardcoded mock or, when the
environment variable ENABLE_EXTERNAL_BOOK_SERVICE is exactly "true", by an
outbound HTTP GET to the Google Books API followed by a field mapping.

Modelling choices:
- The environment is a total function `String → String` (Go's `os.Getenv`
  returns "" for an unset variable).
- The outbound HTTP world is a function `upstream : String → HttpOutcome`
  from the requested URL to what the process observes: a transport error,
  a body-read error, or a body.  A body is represented by the outcome of
  `json.Unmarshal` on it: `some` parsed structure, or `none` for a parse
  error (the Go code ignores the error value of `json.Unmarshal`, so the
  zero-valued structure is what a parse error leaves behind).
- Go's unguarded index expressions `Items[0]` and `Authors[0]` are embedded
  with `List.head?`; a `none` there is a Go runtime panic, surfaced as the
  `FetchResult.indexPanic` outcome.
- `log.Printf` output is threaded through results as a `List String`.
-/

/-- The BookDetails type for the details response (src/main.go). -/
structure BookDetails where
  ID : String
  Author : String
  Year : String
  «Type» : String
  Pages : Int
  Publisher : String
  Language : String
  ISBN10 : String
  ISBN13 : String
deriving Repr, DecidableEq

/-- One element of the industryIdentifiers list of the external schema. -/
structure IndustryIdentifier where
  type : String
  identifier : String
deriving Repr, DecidableEq

/-- The volumeInfo part of the external schema.  Only the fields that
src/main.go ever reads are retained (Title is kept as a representative
never-read field); the others (Description, ReadingModes, Categories,
MaturityRating, ImageLinks, links, ...) are never consulted by the code. -/
structure VolumeInfo where
  Title : String
  Authors : List String
  Publisher : String
  PublishedDate : String
  IndustryIdentifiers : List IndustryIdentifier
  PageCount : Int
  PrintType : String
  Language : String
deriving Repr, DecidableEq

/-- One item of the external result set.  The item-level Kind and ID fields
are retained (the code never reads them; SelfLink, Etag, SaleInfo,
AccessInfo, SearchInfo are likewise never consulted and elided). -/
structure ExternalItem where
  Kind : String
  ID : String
  VolumeInfo : VolumeInfo
deriving Repr, DecidableEq

/-- The ExternalBookDetails type: the answer from the Google API. -/
structure ExternalBookDetails where
  Kind : String
  TotalItems : Int
  Items : List ExternalItem
deriving Repr, DecidableEq

/-- The zero value of the external structure: what Go's `var` declaration
gives and what a failed `json.Unmarshal` leaves untouched. -/
def ExternalBookDetails.zero : ExternalBookDetails :=
  { Kind := "", TotalItems := 0, Items := [] }

/-- What the process observes from the outbound HTTP call:
`netErr` models an error from `http.Get`, `readErr` an error from
`ioutil.ReadAll` (each carrying the error text used in the log), and
`body parsed` a readable body, given by the result of `json.Unmarshal`
on it (`none` = parse error, which the code ignores). -/
inductive HttpOutcome where
  | netErr (msg : String)
  | readErr (msg : String)
  | body (parsed : Option ExternalBookDetails)
deriving Repr, DecidableEq

/-- Result of the resolver: `ok none` models a nil `*BookDetails`,
`ok (some b)` a populated record, and `indexPanic` the Go runtime panic
raised by an out-of-range index expression. -/
inductive FetchResult where
  | indexPanic
  | ok (b : Option BookDetails)
deriving Repr, DecidableEq

/-- The URL built for the outbound request in fetchDetailsFromExternalService. -/
def googleBooksURL (isbn : String) : String :=
  "https://www.googleapis.com/books/v1/volumes?q=isbn:" ++ isbn

/-- getPrintType of src/main.go; `none` models the panic of the unguarded
`Items[0]` index. -/
def getPrintType (externalBookDetails : ExternalBookDetails) : Option String :=
  externalBookDetails.Items.head?.map fun item =>
    if item.VolumeInfo.PrintType == "BOOK" then "paperback" else "unknown"

/-- getLanguage of src/main.go; `none` models the panic of the unguarded
`Items[0]` index. -/
def getLanguage (externalBookDetails : ExternalBookDetails) : Option String :=
  externalBookDetails.Items.head?.map fun item =>
    if item.VolumeInfo.Language == "en" then "English" else "unknown"

/-- The range-for loop of getISBN in src/main.go: first entry whose type
equals `kind` wins; the literal "1234567890" when none matches. -/
def isbnScan (kind : String) : List IndustryIdentifier → String
  | [] => "1234567890"
  | industryIdentifier :: rest =>
    if industryIdentifier.type == kind then industryIdentifier.identifier
    else isbnScan kind rest

/-- getISBN of src/main.go; `none` models the panic of the unguarded
`Items[0]` index. -/
def getISBN (kind : String) (externalBookDetails : ExternalBookDetails) : Option String :=
  externalBookDetails.Items.head?.map fun item =>
    isbnScan kind item.VolumeInfo.IndustryIdentifiers

/-- fetchDetailsFromExternalService of src/main.go.  Returns the log lines
emitted together with the outcome.  On a transport or read error the error
is logged and a nil record returned.  A readable body is unmarshalled with
the error ignored: `parsed.getD ExternalBookDetails.zero` is exactly the
zero-valued structure surviving a parse failure.  The struct literal then
evaluates the unguarded index expressions, modelled in the Option monad;
an out-of-range access is the `indexPanic` outcome. -/
def fetchDetailsFromExternalService (upstream : String → HttpOutcome)
    (isbn id : String) : List String × FetchResult :=
  match upstream (googleBooksURL isbn) with
  | .netErr msg =>
      (["Fetching details from external service failed with error " ++ msg ++ "\n"], .ok none)
  | .readErr msg =>
      (["Can\x27t read response from external service with error " ++ msg ++ "\n"], .ok none)
  | .body parsed =>
      let externalBookDetails := parsed.getD ExternalBookDetails.zero
      match
        (do
          let item0 ← externalBookDetails.Items.head?
          let author0 ← item0.VolumeInfo.Authors.head?
          let printType ← getPrintType externalBookDetails
          let language ← getLanguage externalBookDetails
          let isbn10 ← getISBN "ISBN_10" externalBookDetails
          let isbn13 ← getISBN "ISBN_13" externalBookDetails
          pure { ID := id
                 Author := author0
                 Year := item0.VolumeInfo.PublishedDate
                 «Type» := printType
                 Pages := item0.VolumeInfo.PageCount
                 Publisher := item0.VolumeInfo.Publisher
                 Language := language
                 ISBN10 := isbn10
                 ISBN13 := isbn13 : BookDetails } : Option BookDetails)
      with
      | none => ([], .indexPanic)
      | some bookDetails => ([], .ok (some bookDetails))

/-- getBookDetails of src/main.go: external fetch with the fixed hardcoded
ISBN when ENABLE_EXTERNAL_BOOK_SERVICE is exactly "true", else the mock. -/
def getBookDetails (env : String → String) (upstream : String → HttpOutcome)
    (id : String) : List String × FetchResult :=
  if env "ENABLE_EXTERNAL_BOOK_SERVICE" == "true" then
    fetchDetailsFromExternalService upstream "0486424618" id
  else
    ([], .ok (some
      { ID := id, Author := "William Shakespeare", Year := "1595",
        «Type» := "paperback", Pages := 200, Publisher := "PublisherX",
        Language := "English", ISBN10 := "1234567890", ISBN13 := "123-1234567890" }))

/-- An HTTP response body as the handlers produce it: `text` via
`http.Error`, `raw` via `io.WriteString`, `json` via
`json.NewEncoder(w).Encode` on a `*BookDetails` (`none` = nil pointer,
which encodes to the JSON text null). -/
inductive Body where
  | text (s : String)
  | raw (s : String)
  | json (b : Option BookDetails)
deriving Repr, DecidableEq

/-- An HTTP response: status code, Content-Type header, body. -/
structure HttpResponse where
  status : Nat
  contentType : Option String
  body : Body
deriving Repr, DecidableEq

/-- Outcome of running a handler: a response, or a runtime panic reached
through the resolver. -/
inductive HandlerResult where
  | indexPanic
  | response (r : HttpResponse)
deriving Repr, DecidableEq

/-- GetDetails of src/main.go.  `http.Error(w, msg, 400)` sets Content-Type
text/plain; charset=utf-8 and appends a newline to the message. -/
def GetDetails (env : String → String) (upstream : String → HttpOutcome)
    (id : String) : List String × HandlerResult :=
  if id == "" then
    ([], .response
      { status := 400, contentType := some "text/plain; charset=utf-8",
        body := .text "please provide product id\n" })
  else
    match getBookDetails env upstream id with
    | (logs, .indexPanic) => (logs, .indexPanic)
    | (logs, .ok b) =>
        (logs, .response
          { status := 200, contentType := some "application/json", body := .json b })

/-- Health of src/main.go: status 200, JSON content type, and the literal
body written by io.WriteString (single-quoted). -/
def Health : HttpResponse :=
  { status := 200, contentType := some "application/json",
    body := .raw "\x7b\x27status\x27:\x27Details is healthy\x27\x7d" }

/-- Modelled from the spec: a necessary condition for a well-formed JSON
text (RFC 8259), used because the spec calls for a "well-formed JSON status
body".  In any well-formed JSON text, each opening brace of an object is
followed, after optional JSON whitespace, by a double quote (start of a
member name) or a closing brace.  Checked over the character list. -/
def braceOk : List Char → Bool
  | [] => true
  | c :: rest =>
    if c == '\x7b' then
      (match rest.dropWhile (fun d => d == ' ' || d == '\t' || d == '\n' || d == '\r') with
       | [] => false
       | d :: _ => d == '\x22' || d == '\x7d') && braceOk rest
    else braceOk rest

/-- Modelled from the spec: the brace-shape necessary condition for a
well-formed JSON text, on a string. -/
def jsonObjectBracesWellFormed (s : String) : Bool :=
  braceOk s.toList

/-- Field-wise agreement of two resolver outcomes on everything except the
ID field (and agreement of the outcome shape). -/
def sameExceptID : FetchResult → FetchResult → Bool
  | .indexPanic, .indexPanic => true
  | .ok none, .ok none => true
  | .ok (some b1), .ok (some b2) =>
      b1.Author == b2.Author && b1.Year == b2.Year && b1.«Type» == b2.«Type» &&
      b1.Pages == b2.Pages && b1.Publisher == b2.Publisher &&
      b1.Language == b2.Language && b1.ISBN10 == b2.ISBN10 && b1.ISBN13 == b2.ISBN13
  | _, _ => false

/-- The fixed mock record of getBookDetails with the requested id stamped in. -/
def mockRecord (id : String) : BookDetails :=
  { ID := id, Author := "William Shakespeare", Year := "1595",
    «Type» := "paperback", Pages := 200, Publisher := "PublisherX",
    Language := "English", ISBN10 := "1234567890", ISBN13 := "123-1234567890" }

/-- C1: for every non-empty id, when ENABLE_EXTERNAL_BOOK_SERVICE is any
value other than the exact string "true" (unset reads as ""), GET
/details/{id} responds HTTP 200 with JSON content type and a BookDetails
record whose ID equals id and whose other fields are the fixed mock values:
author "William Shakespeare", year "1595", type "paperback", 200 pages,
publisher "PublisherX", language "English", ISBN-10 "1234567890",
ISBN-13 "123-1234567890". -/
theorem mock_mode_returns_fixed_record (env : String → String)
    (upstream : String → HttpOutcome) (id : String)
    (hid : id ≠ "") (henv : env "ENABLE_EXTERNAL_BOOK_SERVICE" ≠ "true") :
    GetDetails env upstream id =
      ([], .response
        { status := 200, contentType := some "application/json",
          body := .json (some (mockRecord id)) }) := by
  simp [GetDetails, getBookDetails, hid, henv, mockRecord]

/-- Witness for C1 at a concrete environment, upstream and id. -/
theorem mock_mode_returns_fixed_record_witness :
    "42" ≠ "" ∧ (fun _ : String => "") "ENABLE_EXTERNAL_BOOK_SERVICE" ≠ "true" ∧
    GetDetails (fun _ => "") (fun _ => .netErr "e") "42" =
      ([], .response
        { status := 200, contentType := some "application/json",
          body := .json (some (mockRecord "42")) }) :=
  ⟨by decide, by decide,
   mock_mode_returns_fixed_record (fun _ => "") (fun _ => .netErr "e") "42"
     (by decide) (by decide)⟩

/-- C9: when the path parameter id is empty, the details handler responds
HTTP 400 with a plain-text error message and performs no lookup: the
result is the same constant for every environment and every upstream, with
no log emitted, so neither the mock construction nor the external fetch is
consulted. -/
theorem empty_id_bad_request_no_lookup (env : String → String)
    (upstream : String → HttpOutcome) :
    GetDetails env upstream "" =
      ([], .response
        { status := 400, contentType := some "text/plain; charset=utf-8",
          body := .text "please provide product id\n" }) := by
  rfl

/-- C5: in external mode, when the outbound request fails or the body
cannot be read, the error is logged, the resolver returns a nil record,
and the handler still responds HTTP 200 with a null JSON body; the failure
never reaches the status code. -/
theorem transport_failure_logged_null_200 (env : String → String)
    (id msg : String)
    (henv : env "ENABLE_EXTERNAL_BOOK_SERVICE" = "true") (hid : id ≠ "") :
    GetDetails env (fun _ => .netErr msg) id =
      (["Fetching details from external service failed with error " ++ msg ++ "\n"],
       .response
         { status := 200, contentType := some "application/json", body := .json none })
    ∧ GetDetails env (fun _ => .readErr msg) id =
      (["Can\x27t read response from external service with error " ++ msg ++ "\n"],
       .response
         { status := 200, contentType := some "application/json", body := .json none }) := by
  constructor <;>
    simp [GetDetails, getBookDetails, fetchDetailsFromExternalService, hid, henv]

/-- Witness for C5 at a concrete environment, id and error text. -/
theorem transport_failure_logged_null_200_witness :
    (fun _ : String => "true") "ENABLE_EXTERNAL_BOOK_SERVICE" = "true" ∧ "42" ≠ "" ∧
    (GetDetails (fun _ => "true") (fun _ => .netErr "boom") "42" =
      (["Fetching details from external service failed with error boom\n"],
       .response
         { status := 200, contentType := some "application/json", body := .json none })
    ∧ GetDetails (fun _ => "true") (fun _ => .readErr "boom") "42" =
      (["Can\x27t read response from external service with error boom\n"],
       .response
         { status := 200, contentType := some "application/json", body := .json none })) :=
  ⟨rfl, by decide,
   transport_failure_logged_null_200 (fun _ => "true") "42" "boom" rfl (by decide)⟩

/-- C6: the health handler does return HTTP 200 with JSON content type and
consults nothing, but its body is the single-quoted literal
\x7b'status':'Details is healthy'\x7d, which violates the brace-shape
necessary condition of well-formed JSON — so the body is not well-formed
JSON, contradicting the claim (the spec itself flags the single-quoted
literal as malformed). -/
theorem health_literal_not_wellformed_json :
    Health =
      { status := 200, contentType := some "application/json",
        body := .raw "\x7b\x27status\x27:\x27Details is healthy\x27\x7d" }
    ∧ jsonObjectBracesWellFormed "\x7b\x27status\x27:\x27Details is healthy\x27\x7d" = false
    ∧ jsonObjectBracesWellFormed "\x7b\x22status\x22: \x22Details is healthy\x22\x7d" = true :=
  ⟨rfl, by decide, by decide⟩

/-- C10: in mock mode the resolver returns a non-nil record for every id,
including the empty string, and no GetDetails response in mock mode can be
a 200 with body null: the nil-record outcome is reachable only on the
external path. -/
theorem mock_mode_never_null_body (env : String → String)
    (upstream : String → HttpOutcome) (id : String)
    (henv : env "ENABLE_EXTERNAL_BOOK_SERVICE" ≠ "true") :
    getBookDetails env upstream id = ([], .ok (some (mockRecord id)))
    ∧ ∀ logs st ct, GetDetails env upstream id ≠
        (logs, .response { status := st, contentType := ct, body := .json none }) := by
  refine ⟨by simp [getBookDetails, henv, mockRecord], fun logs st ct h => ?_⟩
  by_cases hid : id = ""
  · subst hid
    simp [GetDetails] at h
  · simp [GetDetails, getBookDetails, hid, henv] at h

/-- Witness for C10 at a concrete environment, upstream and the empty id. -/
theorem mock_mode_never_null_body_witness :
    (fun _ : String => "false") "ENABLE_EXTERNAL_BOOK_SERVICE" ≠ "true" ∧
    (getBookDetails (fun _ => "false") (fun _ => .netErr "e") "" =
        ([], .ok (some (mockRecord "")))
    ∧ ∀ logs st ct, GetDetails (fun _ => "false") (fun _ => .netErr "e") "" ≠
        (logs, .response { status := st, contentType := ct, body := .json none })) :=
  ⟨by decide,
   mock_mode_never_null_body (fun _ => "false") (fun _ => .netErr "e") "" (by decide)⟩

/-- C2: in external mode, for an upstream body with exactly one item whose
industry identifiers are [ISBN_10 "111", ISBN_13 "222"], the resolved record
has ISBN10 "111", ISBN13 "222", ID equal to the requested path id (every
upstream field, the item-level ID included, is universally quantified, so
the ID is not derived from upstream data), Type "paperback" exactly when the
print type is "BOOK" and otherwise "unknown", and Language "English" exactly
when the language code is "en" and otherwise "unknown". -/
theorem external_stub_field_mapping (id k extKind extID ti a pub date pt lg : String)
    (rest : List String) (pc tot : Int) :
    fetchDetailsFromExternalService
      (fun _ => .body (some
        { Kind := k, TotalItems := tot,
          Items :=
            [{ Kind := extKind, ID := extID,
               VolumeInfo :=
                 { Title := ti, Authors := a :: rest, Publisher := pub,
                   PublishedDate := date,
                   IndustryIdentifiers := [⟨"ISBN_10", "111"⟩, ⟨"ISBN_13", "222"⟩],
                   PageCount := pc, PrintType := pt, Language := lg } }] }))
      "0486424618" id =
    ([], .ok (some
      { ID := id, Author := a, Year := date,
        «Type» := if pt = "BOOK" then "paperback" else "unknown",
        Pages := pc, Publisher := pub,
        Language := if lg = "en" then "English" else "unknown",
        ISBN10 := "111", ISBN13 := "222" })) := by
  by_cases hpt : pt = "BOOK" <;> by_cases hlg : lg = "en" <;>
    simp [fetchDetailsFromExternalService, getPrintType, getLanguage, getISBN,
      isbnScan, hpt, hlg]

/-- Helper: any populated record produced by fetchDetailsFromExternalService
carries the requested id in its ID field. -/
theorem fetch_id_invariant (upstream : String → HttpOutcome) (isbn id : String)
    (logs : List String) (b : BookDetails)
    (h : fetchDetailsFromExternalService upstream isbn id = (logs, .ok (some b))) :
    b.ID = id := by
  unfold fetchDetailsFromExternalService at h
  cases hU : upstream (googleBooksURL isbn) <;> rw [hU] at h
  · simp at h
  · simp at h
  case body parsed =>
    cases hItems : (parsed.getD ExternalBookDetails.zero).Items with
    | nil => simp [hItems] at h
    | cons item restI =>
      cases hAuth : item.VolumeInfo.Authors with
      | nil => simp [hItems, hAuth] at h
      | cons a restA =>
        simp [getPrintType, getLanguage, getISBN, hItems, hAuth] at h
        rw [← h.2]

/-- C3: for every environment, every upstream behavior and both data
sources (the mock branch and the external branch of getBookDetails), any
BookDetails record the resolver produces has its ID field equal to the
requested path id; all other inputs are universally quantified, so nothing
else influences the ID field. -/
theorem bookdetails_id_equals_request_id (env : String → String)
    (upstream : String → HttpOutcome) (id : String)
    (logs : List String) (b : BookDetails)
    (h : getBookDetails env upstream id = (logs, .ok (some b))) :
    b.ID = id := by
  unfold getBookDetails at h
  split at h
  · exact fetch_id_invariant upstream "0486424618" id logs b h
  · simp at h
    rw [← h.2]

/-- Witness for C3 at a concrete environment, upstream and id. -/
theorem bookdetails_id_equals_request_id_witness :
    getBookDetails (fun _ => "") (fun _ => .netErr "e") "abc" =
      ([], .ok (some (mockRecord "abc")))
    ∧ (mockRecord "abc").ID = "abc" :=
  ⟨rfl, bookdetails_id_equals_request_id (fun _ => "") (fun _ => .netErr "e") "abc"
    [] (mockRecord "abc") rfl⟩

/-- A concrete external item whose authors list is empty. -/
def emptyAuthorsItem : ExternalItem :=
  { Kind := "", ID := "",
    VolumeInfo :=
      { Title := "", Authors := [], Publisher := "", PublishedDate := "",
        IndustryIdentifiers := [], PageCount := 0, PrintType := "", Language := "" } }

/-- C4: a parse error of the upstream body is silently ignored — the fetch
behaves exactly as if the zero-valued structure had been parsed — and the
unguarded items[0]/authors[0] indexing is reachable: a parse error, an
empty items list, and a first item with an empty authors list each end in
the index panic rather than a defined record. -/
theorem parse_error_ignored_unguarded_index (isbn id : String)
    (e : ExternalBookDetails) (item : ExternalItem)
    (hItems : e.Items = []) (hAuth : item.VolumeInfo.Authors = []) :
    fetchDetailsFromExternalService (fun _ => .body none) isbn id
      = fetchDetailsFromExternalService (fun _ => .body (some ExternalBookDetails.zero)) isbn id
    ∧ fetchDetailsFromExternalService (fun _ => .body none) isbn id = ([], .indexPanic)
    ∧ fetchDetailsFromExternalService (fun _ => .body (some e)) isbn id = ([], .indexPanic)
    ∧ fetchDetailsFromExternalService
        (fun _ => .body (some
          { Kind := e.Kind, TotalItems := e.TotalItems, Items := [item] }))
        isbn id = ([], .indexPanic) :=
  ⟨rfl,
   by simp [fetchDetailsFromExternalService, ExternalBookDetails.zero],
   by simp [fetchDetailsFromExternalService, hItems],
   by simp [fetchDetailsFromExternalService, hAuth]⟩

/-- Witness for C4 at a concrete isbn, id, external structure and item. -/
theorem parse_error_ignored_witness :
    ExternalBookDetails.zero.Items = [] ∧ emptyAuthorsItem.VolumeInfo.Authors = [] ∧
    (fetchDetailsFromExternalService (fun _ => .body none) "0486424618" "42"
      = fetchDetailsFromExternalService
          (fun _ => .body (some ExternalBookDetails.zero)) "0486424618" "42"
    ∧ fetchDetailsFromExternalService (fun _ => .body none) "0486424618" "42"
        = ([], .indexPanic)
    ∧ fetchDetailsFromExternalService (fun _ => .body (some ExternalBookDetails.zero))
        "0486424618" "42" = ([], .indexPanic)
    ∧ fetchDetailsFromExternalService
        (fun _ => .body (some
          { Kind := ExternalBookDetails.zero.Kind,
            TotalItems := ExternalBookDetails.zero.TotalItems,
            Items := [emptyAuthorsItem] }))
        "0486424618" "42" = ([], .indexPanic)) :=
  ⟨rfl, rfl,
   parse_error_ignored_unguarded_index "0486424618" "42"
     ExternalBookDetails.zero emptyAuthorsItem rfl rfl⟩

/-- Helper: the getISBN scan returns the default literal when no entry of
the list has the requested type. -/
theorem isbnScan_no_match (kind : String) (l : List IndustryIdentifier)
    (h : ∀ j ∈ l, j.type ≠ kind) : isbnScan kind l = "1234567890" := by
  induction l with
  | nil => rfl
  | cons i rest ih =>
    have hi : i.type ≠ kind := h i (List.mem_cons_self i rest)
    simp only [isbnScan, beq_eq_false_iff_ne.mpr hi, if_false, Bool.false_eq_true]
    exact ih fun j hj => h j (List.mem_cons_of_mem i hj)

/-- Helper: the getISBN scan returns the identifier of the first entry of
the requested type. -/
theorem isbnScan_first_match (kind : String) (pre post : List IndustryIdentifier)
    (i : IndustryIdentifier) (hpre : ∀ j ∈ pre, j.type ≠ kind) (hi : i.type = kind) :
    isbnScan kind (pre ++ i :: post) = i.identifier := by
  induction pre with
  | nil => simp [isbnScan, hi]
  | cons p rest ih =>
    have hp : p.type ≠ kind := hpre p (List.mem_cons_self p rest)
    simp only [List.cons_append, isbnScan, beq_eq_false_iff_ne.mpr hp, if_false,
      Bool.false_eq_true]
    exact ih fun j hj => hpre j (List.mem_cons_of_mem p hj)

/-- C8: for any kind (in particular "ISBN_10" and "ISBN_13"), getISBN scans
the industry-identifiers list of the first item in order: it returns the
identifier of the first entry whose type equals the kind, and the literal
"1234567890" when no entry matches (including the empty list). -/
theorem getISBN_first_match_or_default (kind : String) (e : ExternalBookDetails)
    (item : ExternalItem) (restItems : List ExternalItem)
    (hItems : e.Items = item :: restItems) :
    getISBN kind e = some (isbnScan kind item.VolumeInfo.IndustryIdentifiers)
    ∧ (∀ pre i post, item.VolumeInfo.IndustryIdentifiers = pre ++ i :: post →
        (∀ j ∈ pre, j.type ≠ kind) → i.type = kind →
        getISBN kind e = some i.identifier)
    ∧ ((∀ j ∈ item.VolumeInfo.IndustryIdentifiers, j.type ≠ kind) →
        getISBN kind e = some "1234567890") := by
  have hbase : getISBN kind e = some (isbnScan kind item.VolumeInfo.IndustryIdentifiers) := by
    simp [getISBN, hItems]
  refine ⟨hbase, fun pre i post hsplit hpre hi => ?_, fun hnone => ?_⟩
  · rw [hbase, hsplit, isbnScan_first_match kind pre post i hpre hi]
  · rw [hbase, isbnScan_no_match kind _ hnone]

/-- A concrete external item carrying an ISBN_10 and an ISBN_13 identifier. -/
def stubIdentifiersItem : ExternalItem :=
  { Kind := "", ID := "",
    VolumeInfo :=
      { Title := "", Authors := ["a"], Publisher := "", PublishedDate := "",
        IndustryIdentifiers := [⟨"ISBN_10", "111"⟩, ⟨"ISBN_13", "222"⟩],
        PageCount := 0, PrintType := "", Language := "" } }

/-- A concrete external structure with one item, for witnesses. -/
def stubIdentifiersExternal : ExternalBookDetails :=
  { Kind := "", TotalItems := 1, Items := [stubIdentifiersItem] }

/-- Witness for C8 at a concrete kind and external structure. -/
theorem getISBN_first_match_or_default_witness :
    stubIdentifiersExternal.Items = [stubIdentifiersItem] ∧
    getISBN "ISBN_13" stubIdentifiersExternal
      = some (isbnScan "ISBN_13" stubIdentifiersItem.VolumeInfo.IndustryIdentifiers) ∧
    isbnScan "ISBN_13" stubIdentifiersItem.VolumeInfo.IndustryIdentifiers = "222" :=
  ⟨rfl,
   (getISBN_first_match_or_default "ISBN_13" stubIdentifiersExternal
     stubIdentifiersItem [] rfl).1,
   by decide⟩

/-- C7: in external mode the outbound query uses only the fixed hardcoded
ISBN "0486424618": any upstream agreeing on that one URL yields the very
same result (so the requested id never selects what is fetched), and two
requests with different ids against the same upstream produce the same
logs and records agreeing on every field except ID. -/
theorem external_fixed_isbn_noninterference (env : String → String)
    (upstream upstream2 : String → HttpOutcome) (id id2 : String)
    (henv : env "ENABLE_EXTERNAL_BOOK_SERVICE" = "true")
    (hagree : upstream2 (googleBooksURL "0486424618")
      = upstream (googleBooksURL "0486424618")) :
    getBookDetails env upstream2 id = getBookDetails env upstream id
    ∧ (getBookDetails env upstream id).1 = (getBookDetails env upstream id2).1
    ∧ sameExceptID (getBookDetails env upstream id).2
        (getBookDetails env upstream id2).2 = true := by
  have hgd : ∀ (u : String → HttpOutcome) (j : String),
      getBookDetails env u j = fetchDetailsFromExternalService u "0486424618" j := by
    intro u j
    simp [getBookDetails, henv]
  simp only [hgd]
  refine ⟨?_, ?_, ?_⟩
  · unfold fetchDetailsFromExternalService
    rw [hagree]
  all_goals
    unfold fetchDetailsFromExternalService
    cases hU : upstream (googleBooksURL "0486424618") with
    | netErr m => simp [sameExceptID]
    | readErr m => simp [sameExceptID]
    | body parsed =>
      cases hItems : (parsed.getD ExternalBookDetails.zero).Items with
      | nil => simp [hItems, sameExceptID]
      | cons item restI =>
        cases hAuth : item.VolumeInfo.Authors with
        | nil => simp [hItems, hAuth, sameExceptID]
        | cons a restA =>
          simp [getPrintType, getLanguage, getISBN, hItems, hAuth, sameExceptID]

/-- Witness for C7 at a concrete environment, upstream and two ids. -/
theorem external_fixed_isbn_noninterference_witness :
    (fun _ : String => "true") "ENABLE_EXTERNAL_BOOK_SERVICE" = "true" ∧
    sameExceptID
      (getBookDetails (fun _ => "true")
        (fun _ => .body (some stubIdentifiersExternal)) "a").2
      (getBookDetails (fun _ => "true")
        (fun _ => .body (some stubIdentifiersExternal)) "b").2 = true :=
  ⟨rfl,
   (external_fixed_isbn_noninterference (fun _ => "true")
     (fun _ => .body (some stubIdentifiersExternal))
     (fun _ => .body (some stubIdentifiersExternal)) "a" "b" rfl rfl).2.2⟩
